import Mathlib

/-!
Verification development for the `public_transport_RAG` repository.

The repository is a Python system: two Kafka producers
(`src/scripts/disturbance_producer.py`, `src/scripts/station_producer.py`),
two Kafka-to-Elasticsearch sinks (`src/scripts/disturbance_sink.py`,
`src/scripts/stations_sink.py`) and a query/itinerary engine
(`src/tools/tools.py`).  This file gives a shallow embedding of the parts
of that code the checked claims are about: string normalization, the
blocked-mode substring test, the journey-section allow list, itinerary
rendering, the station-resolution control flow with an explicit trace of
the external queries it issues, the sinks' document-id / clear-by-query /
offset-commit behaviour, and the producers' per-group publish traces.

Machine strings are Lean `String`s; Python `s.strip()`, `in`, `replace`,
truthiness and `or`-chains are embedded as executable functions below.
-/

namespace PTRag

/-! ## Python string primitives -/

/-- Characters treated as whitespace by Python's `str.strip()` / `\s`
(the ASCII whitespace actually occurring in this repository's data). -/
def pyWs (c : Char) : Bool :=
  c = ' ' || c = '\t' || c = '\n' || c = '\r' || c = '\x0b' || c = '\x0c'

/-- `str.strip()` on a character list: drop leading and trailing whitespace. -/
def pyStripList (cs : List Char) : List Char :=
  ((cs.dropWhile pyWs).reverse.dropWhile pyWs).reverse

/-- Python `s.strip()`. -/
def pyStrip (s : String) : String :=
  ⟨pyStripList s.data⟩

/-- Is `pat` a prefix of `s` (character-exact)? -/
def isPrefixL : List Char → List Char → Bool
  | [], _ => true
  | _ :: _, [] => false
  | a :: as, b :: bs => a = b && isPrefixL as bs

/-- Python substring test `pat in s`, on character lists. -/
def containsSubList (pat : List Char) : List Char → Bool
  | [] => isPrefixL pat []
  | c :: rest => isPrefixL pat (c :: rest) || containsSubList pat rest

/-- Python `needle in hay` for strings. -/
def containsSub (hay needle : String) : Bool :=
  containsSubList needle.data hay.data

/-- Python `s.replace(pat, rep)` (all non-overlapping occurrences,
left to right); for the degenerate empty pattern — which never occurs in
this code base — the input is returned unchanged. -/
def replaceAllL (pat rep : List Char) : List Char → List Char
  | [] => []
  | c :: rest =>
    if h : pat ≠ [] ∧ isPrefixL pat (c :: rest) = true then
      rep ++ replaceAllL pat rep ((c :: rest).drop pat.length)
    else
      c :: replaceAllL pat rep rest
termination_by l => l.length
decreasing_by
  · simp only [List.length_drop]
    have hpos : 0 < pat.length := List.length_pos.mpr h.1
    simp only [List.length_cons]
    omega
  · simp [List.length_cons]

/-- Python `s.replace(pat, rep)` for strings. -/
def replaceAll (s pat rep : String) : String :=
  ⟨replaceAllL pat.data rep.data s.data⟩

/-- Collapse runs of adjacent spaces to a single space
(used to model `re.sub(r"\s+", " ", s)` after whitespace has been mapped
to plain spaces). -/
def squeezeSpaces : List Char → List Char
  | [] => []
  | [c] => [c]
  | a :: b :: rest =>
    if a = ' ' && b = ' ' then squeezeSpaces (b :: rest)
    else a :: squeezeSpaces (b :: rest)

/-- Map every whitespace character to a plain space. -/
def wsToSpace (c : Char) : Char :=
  if pyWs c then ' ' else c

/-- The quote/dash replacements at the start of `normalize_text`
(tools.py line 70): `’ → '`, `– → -`, `— → -`. -/
def replSpecial (c : Char) : Char :=
  if c = '’' then '\'' else if c = '–' then '-' else if c = '—' then '-' else c

/-- NFKD decomposition followed by dropping combining marks
(tools.py lines 71-72), modelled character-by-character for the accented
Latin letters that occur in this repository's (French) station and mode
names; characters outside the table are unchanged. -/
def nfkdBase (c : Char) : Char :=
  match c with
  | 'à' | 'â' | 'ä' | 'á' | 'ã' => 'a'
  | 'À' | 'Â' | 'Ä' | 'Á' | 'Ã' => 'A'
  | 'é' | 'è' | 'ê' | 'ë' => 'e'
  | 'É' | 'È' | 'Ê' | 'Ë' => 'E'
  | 'î' | 'ï' | 'í' => 'i'
  | 'Î' | 'Ï' | 'Í' => 'I'
  | 'ô' | 'ö' | 'ó' | 'õ' => 'o'
  | 'Ô' | 'Ö' | 'Ó' | 'Õ' => 'O'
  | 'ù' | 'û' | 'ü' | 'ú' => 'u'
  | 'Ù' | 'Û' | 'Ü' | 'Ú' => 'u'
  | 'ç' => 'c'
  | 'Ç' => 'C'
  | 'ÿ' => 'y'
  | _ => c

/-- The pipeline of `normalize_text` after the initial `strip()`:
special-char replacement, NFKD accent folding, lowercasing, whitespace
collapse, final strip (tools.py lines 70-75). -/
def normalizeTail (cs : List Char) : List Char :=
  pyStripList (squeezeSpaces ((((cs.map replSpecial).map nfkdBase).map
    Char.toLower).map wsToSpace))

/-- `normalize_text` (tools.py lines 68-75): strip, replace special quotes
and dashes, NFKD-fold accents, lowercase, collapse whitespace, strip. -/
def normalizeText (s : String) : String :=
  ⟨normalizeTail (pyStripList s.data)⟩

/-- `BLOCKED_KEYWORDS = {"tram", "ter"}` (tools.py line 20); the Python
set is modelled as a list, `any` being insensitive to the order. -/
def BLOCKED_KEYWORDS : List String := ["tram", "ter"]

/-- `_contains_blocked` (tools.py lines 78-80): the raw substring test on
the normalized input. -/
def containsBlocked (text : String) : Bool :=
  BLOCKED_KEYWORDS.any (fun k => containsSub (normalizeText text) k)

/-- Python string truthiness for an optional string: `None` and `""` are
falsy, everything else truthy. -/
def pyTruthy (v : Option String) : Bool :=
  match v with
  | none => false
  | some s => s ≠ ""

/-- Python `a or b` for two strings (left operand wins unless empty). -/
def pyOrS (a b : String) : String :=
  if a = "" then b else a

/-- `str.lower()` character by character (ASCII; accented characters are
unchanged, as they are by `Char.toLower`). -/
def pyLower (s : String) : String :=
  ⟨s.data.map Char.toLower⟩

/-- `str.upper()` character by character (ASCII). -/
def pyUpper (s : String) : String :=
  ⟨s.data.map Char.toUpper⟩

/-- Python `opt or ""` for a `dict.get` result. -/
def getOr (v : Option String) : String :=
  v.getD ""

/-- Python `a.get(x) or a.get(y) or ""`: first truthy string of the chain. -/
def pyOrChain (a b : Option String) : String :=
  pyOrS (getOr a) (getOr b)

/-- `str.capitalize()` for the already-lowercased output of
`normalize_text`: first character uppercased, rest unchanged. -/
def capitalizeStr (s : String) : String :=
  match s.data with
  | [] => ""
  | c :: rest => ⟨c.toUpper :: rest⟩

/-- Zero-padded two-digit rendering, Python's `f"{mm:02d}"`. -/
def pad2 (n : Nat) : String :=
  if n < 10 then "0" ++ toString n else toString n

/-- Join a list of strings with `"\n"`, Python's `"\n".join(out)`. -/
def joinLines : List String → String
  | [] => ""
  | [s] => s
  | s :: rest => s ++ "\n" ++ joinLines rest

/-! ## Journey data model (parsed journeys response, tools.py) -/

/-- The `network` entry of `display_informations`: sometimes a dict with a
`name`, sometimes a plain string, sometimes absent
(`_safe_network_name`, tools.py lines 302-309). -/
inductive NetworkField where
  | obj (name : Option String)
  | strv (s : String)
  | null
deriving DecidableEq, Repr

/-- The fields of a section's `display_informations` dict read by
`_allowed_section` and `_format_section`. -/
structure DisplayInfo where
  commercial_mode : Option String := none
  network : NetworkField := .null
  code : Option String := none
  name : Option String := none
  direction : Option String := none
deriving DecidableEq, Repr

/-- A journey section as read by tools.py.  `links` holds the disruption
link ids embedded in the payload; the code under verification never reads
this field, it is carried to state the disruption-overlay claim. -/
structure Section where
  type_ : String := ""
  mode : Option String := none
  fromName : String := ""
  toName : String := ""
  duration : Option Nat := none
  di : DisplayInfo := {}
  links : List String := []
deriving DecidableEq, Repr

/-- A journey of the journeys response (`duration`, `nb_transfers`,
`sections`). -/
structure Journey where
  duration : Option Nat := none
  nb_transfers : Option Nat := none
  sections : List Section := []
deriving DecidableEq, Repr

/-- A disruption object embedded in the journeys response (object id and
first message text).  tools.py never reads this part of the payload; it is
carried to state the disruption-overlay claim. -/
structure RespDisruption where
  id : String
  message : String
deriving DecidableEq, Repr

/-- The parsed journeys response handed to the rendering part of
`get_itinerary` (tools.py lines 444-461). -/
structure JourneysResponse where
  journeys : List Journey := []
  disruptions : List RespDisruption := []
deriving DecidableEq, Repr

/-! ## Itinerary formatting (tools.py lines 291-415) -/

/-- `_format_duration` (tools.py lines 291-299). -/
def formatDuration (seconds : Option Nat) : String :=
  match seconds with
  | none => "?"
  | some s =>
    let m := s / 60
    if m < 60 then toString m ++ " min"
    else
      let h := m / 60
      let mm := m % 60
      toString h ++ " h " ++ pad2 mm ++ " min"

/-- `_safe_network_name` (tools.py lines 302-309). -/
def safeNetworkName (di : DisplayInfo) : String :=
  match di.network with
  | .obj n => pyStrip (getOr n)
  | .strv s => pyStrip s
  | .null => ""

/-- Is `code` a single letter A..E (upper-cased), the RER line check of
`_allowed_section` (tools.py line 341)? -/
def isRerLetter (code : String) : Bool :=
  code.length = 1 &&
    (pyUpper code = "A" || pyUpper code = "B" || pyUpper code = "C" ||
     pyUpper code = "D" || pyUpper code = "E")

/-- `_allowed_section` (tools.py lines 312-347): allow Metro + Bus + RER,
block Tram/TER, on normalized substring tests. -/
def allowedSection (s : Section) : Bool :=
  if s.type_ ≠ "public_transport" then true
  else
    let cm := normalizeText (getOr s.di.commercial_mode)
    let nm := normalizeText (safeNetworkName s.di)
    let code := pyStrip (pyOrChain s.di.code s.di.name)
    if containsSub cm "tram" || containsSub nm "tram" then false
    else if containsSub cm "ter" || containsSub nm "ter" then false
    else if containsSub cm "metro" then true
    else if containsSub cm "bus" then true
    else if containsSub cm "rer" || containsSub cm "rapid" ||
            containsSub cm "transilien" then
      -- the source keeps an explicit A..E check here, returning True on
      -- both branches (lines 341-344)
      if isRerLetter code then true else true
    else false

/-- `_format_section` (tools.py lines 350-395): render one section as its
list of output lines. -/
def formatSection (s : Section) (idx : Nat) : List String :=
  let stype := s.type_
  if stype = "street_network" then
    let dep := pyStrip s.fromName
    let arr := pyStrip s.toName
    let dur := formatDuration s.duration
    let mode := normalizeText (pyOrS (getOr s.mode) "walking")
    let label := if mode = "walking" then "Walk" else capitalizeStr mode
    [toString idx ++ ". **" ++ label ++ "** (" ++ dur ++ ") — " ++ dep ++
      " → " ++ arr]
  else if stype = "public_transport" then
    let dep := pyStrip s.fromName
    let arr := pyStrip s.toName
    let dur := formatDuration s.duration
    let cm := pyStrip (getOr s.di.commercial_mode)
    let code := pyStrip (getOr s.di.code)
    let name := pyStrip (getOr s.di.name)
    let direction := pyStrip (getOr s.di.direction)
    let cmn := normalizeText cm
    let label :=
      if containsSub cmn "metro" then pyStrip ("Metro " ++ pyOrS code name)
      else if containsSub cmn "bus" then pyStrip ("Bus " ++ pyOrS code name)
      else pyStrip (cm ++ " " ++ pyOrS code name)
    [toString idx ++ ". **" ++ label ++ "** (" ++ dur ++ ")"] ++
      (if direction ≠ "" then ["   - Direction: " ++ direction] else []) ++
      ["   - " ++ dep ++ " → " ++ arr]
  else
    let dep := pyStrip s.fromName
    let arr := pyStrip s.toName
    let dur := formatDuration s.duration
    [toString idx ++ ". **" ++ stype ++ "** (" ++ dur ++ ") — " ++ dep ++
      " → " ++ arr]

/-- The section loop of `_format_journey` (tools.py lines 403-411):
skip `waiting`/`transfer`, skip disallowed sections, number the rest from
`idx`; returns the rendered lines and the final index. -/
def formatJourneyAux : List Section → Nat → List String × Nat
  | [], idx => ([], idx)
  | s :: rest, idx =>
    if s.type_ = "waiting" || s.type_ = "transfer" then
      formatJourneyAux rest idx
    else if !allowedSection s then
      formatJourneyAux rest idx
    else
      let (tl, idx') := formatJourneyAux rest (idx + 1)
      (formatSection s idx ++ tl, idx')

/-- `_format_journey` (tools.py lines 398-415). -/
def formatJourney (j : Journey) : String :=
  let dur := formatDuration j.duration
  let transfers := j.nb_transfers.getD 0
  let head := "**Total:** " ++ dur ++ " — **Transfers:** " ++
    toString transfers
  let (body, idxEnd) := formatJourneyAux j.sections 1
  joinLines ([head, ""] ++ body ++
    (if idxEnd = 1 then ["No allowed PT section found (Metro/Bus/RER)."]
     else []))

/-- The journey-eligibility test of `get_itinerary` (tools.py line 452):
some section of type `public_transport` passes `_allowed_section`. -/
def eligibleJourney (j : Journey) : Bool :=
  j.sections.any (fun s => s.type_ = "public_transport" && allowedSection s)

/-- The filter of `get_itinerary` (tools.py lines 449-453). -/
def filteredJourneys (js : List Journey) : List Journey :=
  js.filter eligibleJourney

/-- `use = filtered or journeys` (tools.py line 455): Python `or` on
lists falls through on the empty list. -/
def useJourneys (js : List Journey) : List Journey :=
  if filteredJourneys js = [] then js else filteredJourneys js

/-- The per-option rendering loop of `get_itinerary` (tools.py lines
458-460): `### Option i` header plus the formatted journey, numbering
from `start`. -/
def renderOptions : List Journey → Nat → List String
  | [], _ => []
  | j :: rest, i =>
    ("\n### Option " ++ toString i) :: formatJourney j ::
      renderOptions rest (i + 1)

/-- The rendering stage of `get_itinerary` (tools.py lines 444-461),
applied to the parsed journeys response. -/
def renderJourneys (data : JourneysResponse) : String :=
  let journeys := data.journeys
  if journeys = [] then "No journey found. Try more precise stop names."
  else
    let use := useJourneys journeys
    joinLines ("## Best options (Metro + Bus + RER)" ::
      renderOptions (use.take 3) 1)

/-! ## Resolution engine (tools.py lines 83-285), with explicit query
traces for the external station index and upstream API calls -/

/-- `common_typos_fix` (tools.py lines 83-89). -/
def commonTyposFix (q : String) : String :=
  replaceAll (replaceAll (normalizeText q) "billacourt" "billancourt")
    "chhtelet" "chatelet"

/-- The `mode_hint` component of `_extract_line_hint` (tools.py lines
92-117): substring tests for metro / rer / bus, in that order.  The
`line_hint` component is computed by a regular-expression search that the
only call site modelled here (`_es_search_stations`, line 160) discards,
so it is not modelled. -/
def extractModeHint (qn : String) : Option String :=
  if containsSub qn "metro" then some "metro"
  else if containsSub qn "rer" then some "rer"
  else if containsSub qn "bus" then some "bus"
  else none

/-- The Elasticsearch search issued by `_es_search_stations` (tools.py
lines 158-202): fixed-up query text, optional mode term filter, size.
The constant multi-match field list and fuzziness options are not
load-bearing for any claim and are left implicit in the call shape. -/
structure EsSearchCall where
  q : String
  modeFilter : Option String
  size : Nat
deriving DecidableEq, Repr

/-- The call `_es_search_stations(station_name, size=5)` builds
(tools.py lines 159-165): `common_typos_fix` on the query, mode filter
from the hint extracted from the normalized query. -/
def esCallOf (query : String) : EsSearchCall :=
  ⟨commonTyposFix query, extractModeHint (normalizeText query), 5⟩

/-- The `_source` fields of an index hit probed by `_pick_id`,
`_pick_name` and `_pick_mode` (tools.py lines 123-155); `none` models a
missing key or a non-string value. -/
structure HitSource where
  id : Option String := none
  navitia_id : Option String := none
  stop_area_id : Option String := none
  stop_area : Option String := none
  place_id : Option String := none
  idfm_id : Option String := none
  idfm : Option String := none
  stop_area_idfm : Option String := none
  name : Option String := none
  label : Option String := none
  stop_name : Option String := none
  station_name : Option String := none
  mode : Option String := none
  transport_mode : Option String := none
  commercial_mode : Option String := none
deriving DecidableEq, Repr

/-- One Elasticsearch hit: its `_source` and `_id`. -/
structure Hit where
  source : HitSource := {}
  esId : Option String := none
deriving DecidableEq, Repr

/-- Python `v.startswith((p1, p2, ...))`. -/
def startswithAny (v : String) (pres : List String) : Bool :=
  pres.any (fun p => p.isPrefixOf v)

/-- First value of the list that is a string with a Navitia place prefix
(the first loop of `_pick_id`, tools.py lines 128-131). -/
def firstNavitia : List (Option String) → Option String
  | [] => none
  | v :: rest =>
    match v with
    | some s =>
      if startswithAny s ["stop_area:", "stop_point:", "poi:", "address:"]
      then some s else firstNavitia rest
    | none => firstNavitia rest

/-- Python `s.isdigit()` for the ASCII digits occurring in IDFM codes. -/
def isDigitStr (s : String) : Bool :=
  s ≠ "" && s.data.all Char.isDigit

/-- First value of the list that is an all-digit string (the second loop
of `_pick_id`, tools.py lines 133-136). -/
def firstDigit : List (Option String) → Option String
  | [] => none
  | v :: rest =>
    match v with
    | some s => if isDigitStr s then some s else firstDigit rest
    | none => firstDigit rest

/-- `_pick_id` (tools.py lines 123-140). -/
def pickId (src : HitSource) (esId : Option String) : Option String :=
  match firstNavitia [src.id, src.navitia_id, src.stop_area_id,
      src.stop_area, src.place_id] with
  | some v => some v
  | none =>
    match firstDigit [src.idfm_id, src.idfm, src.stop_area_idfm] with
    | some v => some ("stop_area:IDFM:" ++ v)
    | none =>
      match esId with
      | some e =>
        if startswithAny e ["stop_area:", "stop_point:"] then some e
        else none
      | none => none

/-- First name-like field that is nonempty after stripping
(`_pick_name`, tools.py lines 143-148). -/
def firstNonemptyName : List (Option String) → String
  | [] => ""
  | v :: rest =>
    match v with
    | some s => if pyStrip s ≠ "" then pyStrip s else firstNonemptyName rest
    | none => firstNonemptyName rest

/-- `_pick_name` (tools.py lines 143-148). -/
def pickName (src : HitSource) : String :=
  firstNonemptyName [src.name, src.label, src.stop_name, src.station_name]

/-- `_pick_mode` (tools.py lines 151-155): Python `or`-chain over the
three mode fields, then `normalize_text`; a fully falsy chain normalizes
to the empty string exactly as the Python `return ""` does. -/
def pickMode (src : HitSource) : String :=
  normalizeText (pyOrS (getOr src.mode)
    (pyOrS (getOr src.transport_mode) (getOr src.commercial_mode)))

/-- A station candidate assembled from a hit (`get_station_id`,
tools.py lines 240-246).  The `score` entry of the Python dict is never
read downstream and is not modelled. -/
structure Candidate where
  name : String
  id : String
  mode : String
deriving DecidableEq, Repr

/-- The candidate built from one hit, `none` when `sid and nm` is falsy
(tools.py lines 240-246). -/
def candOf (h : Hit) : Option Candidate :=
  let sid := pickId h.source h.esId
  let nm := pickName h.source
  let md := pickMode h.source
  match sid with
  | some i => if nm ≠ "" then some ⟨nm, i, pyOrS md "unknown"⟩ else none
  | none => none

/-- The JSON payload of a successful resolution (`get_station_id`,
tools.py lines 250-256). -/
structure Payload where
  name : String
  id : String
  mode : String
  candidates : List (String × String)
deriving DecidableEq, Repr

/-- The payload built from the best candidate (tools.py lines 249-255). -/
def mkPayload (best : Candidate) (cands : List Candidate) : Payload :=
  ⟨best.name, best.id, pyOrS best.mode "unknown",
    (cands.take 5).map (fun c => (c.name, c.mode))⟩

/-- JSON string escaping for the characters that need it in this domain
(backslash and double quote). -/
def jsonEscape (s : String) : String :=
  ⟨s.data.foldr (fun c acc =>
    if c = '\\' then '\\' :: '\\' :: acc
    else if c = '"' then '\\' :: '"' :: acc
    else c :: acc) []⟩

/-- A JSON string literal. -/
def jsonStr (s : String) : String :=
  "\"" ++ jsonEscape s ++ "\""

/-- Comma-space join, Python's default `json.dumps` item separator. -/
def joinComma : List String → String
  | [] => ""
  | [s] => s
  | s :: rest => s ++ ", " ++ joinComma rest

/-- `json.dumps(payload, ensure_ascii=False)` for the resolution payload
(tools.py line 256), with Python's default separators. -/
def jsonDumpsPayload (p : Payload) : String :=
  "\x7b\"name\": " ++ jsonStr p.name ++ ", \"id\": " ++ jsonStr p.id ++
    ", \"mode\": " ++ jsonStr p.mode ++ ", \"candidates\": [" ++
    joinComma (p.candidates.map (fun c =>
      "\x7b\"name\": " ++ jsonStr c.1 ++ ", \"mode\": " ++ jsonStr c.2 ++
        "\x7d")) ++ "]\x7d"

/-- A place of the PRIM `places` response, with `none` for a missing or
non-string field; `quality` is an integral relevance score (the Python
code coerces it with `float`, but the upstream values are integers). -/
structure Place where
  id : Option String := none
  name : Option String := none
  embedded_type : Option String := none
  quality : Nat := 0
deriving DecidableEq, Repr

/-- The PRIM `places` response. -/
structure PlacesJson where
  places : List Place := []
deriving DecidableEq, Repr

/-- The sort key of `_best_place_from_prim` (tools.py lines 216-220). -/
def placeScore (p : Place) : Nat :=
  (if getOr p.embedded_type = "stop_area" then 1000 else 0) + p.quality

/-- `_best_place_from_prim` (tools.py lines 211-223): the head of the
stable descending sort by `score`, i.e. the first place of maximal
score. -/
def bestPlaceFromPrim (pj : PlacesJson) : Option Place :=
  match pj.places with
  | [] => none
  | p :: rest =>
    some (rest.foldl (fun b q => if placeScore q > placeScore b then q else b) p)

/-- One query to an external service issued by the resolution or
itinerary engine. -/
inductive ExtQuery where
  | esSearch (call : EsSearchCall)
  | primPlaces (q : String)
  | primJourneys (fromId toId : String)
deriving DecidableEq, Repr

/-- The external world as seen by the engines: the station index, the
PRIM `places` endpoint and the PRIM `journeys` endpoint.  `none` models a
raised network/HTTP exception. -/
structure Env where
  esSearch : EsSearchCall → Option (List Hit)
  primPlaces : String → Option PlacesJson
  primJourneys : String → String → Option JourneysResponse

/-- An environment in which every external call fails. -/
def emptyEnv : Env :=
  ⟨fun _ => none, fun _ => none, fun _ _ => none⟩

/-- The outcome of `get_station_id` before rendering to a string
(tools.py lines 226-277). -/
inductive StationIdOutcome where
  | errEmpty
  | notSupported
  | found (p : Payload)
  | notFoundHint (name : String)
  | notFoundPlain (name : String)
  | primHttpError
deriving DecidableEq, Repr

/-- The rejection text for blocked modes (tools.py lines 235, 422, 470). -/
def notSupportedMsg : String :=
  "Not supported: Tram / TER. Supported: Metro + Bus + RER."

/-- The strings returned by `get_station_id` for each outcome; the two
exception paths interpolate `str(e)` after a fixed prefix, elided here. -/
def renderStationIdOutcome : StationIdOutcome → String
  | .errEmpty => "Error: empty station name."
  | .notSupported => notSupportedMsg
  | .found p => jsonDumpsPayload p
  | .notFoundHint nm =>
    "Station not found: \x27" ++ nm ++
      "\x27. Try adding a precision (e.g., \x27Châtelet - Les Halles\x27)."
  | .notFoundPlain nm => "Station not found: \x27" ++ nm ++ "\x27."
  | .primHttpError =>
    "PRIM error while resolving station (HTTP). Check PRIM_TOKEN / " ++
      "header \x27apikey\x27. Details: "

/-- `get_station_id` (tools.py lines 226-277), returning the structured
outcome and the list of external queries issued, in order.  A failed
Elasticsearch search is swallowed by `_es_search_stations` (lines
197-202) and yields no hits. -/
def getStationIdCore (name : String) (env : Env) :
    StationIdOutcome × List ExtQuery :=
  if name = "" || pyStrip name = "" then (.errEmpty, [])
  else if containsBlocked name then (.notSupported, [])
  else
    let call := esCallOf name
    let hits := (env.esSearch call).getD []
    let cands := hits.filterMap candOf
    match cands with
    | best :: _ => (.found (mkPayload best cands), [.esSearch call])
    | [] =>
      let q := commonTyposFix name
      match env.primPlaces q with
      | none => (.primHttpError, [.esSearch call, .primPlaces q])
      | some pj =>
        match bestPlaceFromPrim pj with
        | none => (.notFoundHint name, [.esSearch call, .primPlaces q])
        | some best =>
          match best.id, best.name with
          | some pid, some nm =>
            (.found ⟨nm, pid, "unknown", []⟩,
              [.esSearch call, .primPlaces q])
          | some _, none => (.notFoundPlain name,
              [.esSearch call, .primPlaces q])
          | none, _ => (.notFoundPlain name,
              [.esSearch call, .primPlaces q])

/-- `get_station_id` as the caller sees it: the rendered string and the
query trace. -/
def getStationId (name : String) (env : Env) : String × List ExtQuery :=
  let (o, tr) := getStationIdCore name env
  (renderStationIdOutcome o, tr)

/-- `_resolve_place_id` (tools.py lines 280-285).  The Python code
string-matches the error prefixes `Error` / `Not supported` /
`Station not found` / `PRIM error`, which exactly cover the non-`found`
renderings (a successful payload string starts with a brace), and parses
`obj["id"]` back out of the JSON success string; the embedding reads the
id off the structured payload directly. -/
def resolvePlaceId (name : String) (env : Env) :
    Except String String × List ExtQuery :=
  let (o, tr) := getStationIdCore name env
  match o with
  | .found p => (.ok p.id, tr)
  | o => (.error (renderStationIdOutcome o), tr)

/-- Error text for missing arguments (tools.py line 420). -/
def requiredMsg : String :=
  "Error: start_station and end_station are required."

/-- The fixed guidance text `get_itinerary` returns on an HTTP failure of
the journeys call (tools.py lines 432-440); the interpolated exception
detail is elided. -/
def primJourneysFailMsg : String :=
  "PRIM request failed (HTTP). If you see 401:\n" ++
    "- Ensure PRIM_TOKEN is correct in .env\n" ++
    "- Ensure we send header **apikey: <token>** (this code does)\n" ++
    "- Rebuild/restart containers so env is injected\n\nDetails: "

/-- `get_itinerary` (tools.py lines 418-461): argument check, blocked
check, endpoint resolution, journeys call, rendering; paired with the
trace of external queries issued, in order. -/
def getItinerary (startS endS : String) (env : Env) :
    String × List ExtQuery :=
  if startS = "" || endS = "" then (requiredMsg, [])
  else if containsBlocked startS || containsBlocked endS then
    (notSupportedMsg, [])
  else
    match resolvePlaceId startS env with
    | (.error e, tr1) => (e, tr1)
    | (.ok fromId, tr1) =>
      match resolvePlaceId endS env with
      | (.error e, tr2) => (e, tr1 ++ tr2)
      | (.ok toId, tr2) =>
        match env.primJourneys fromId toId with
        | none =>
          (primJourneysFailMsg, tr1 ++ tr2 ++ [.primJourneys fromId toId])
        | some data =>
          (renderJourneys data, tr1 ++ tr2 ++ [.primJourneys fromId toId])

/-! ## Kafka consumer configuration and the sink consume loop
(`disturbance_sink.py`, `stations_sink.py`) -/

/-- The consumer configuration fields set by the sinks. -/
structure KafkaConf where
  bootstrapServers : String
  groupId : String
  autoOffsetReset : String
  enableAutoCommit : Bool
  sessionTimeoutMs : Option Nat := none
deriving DecidableEq, Repr

/-- `KAFKA_CONF` of `disturbance_sink.py` (lines 17-23). -/
def disturbanceSinkKafkaConf : KafkaConf :=
  { bootstrapServers := "kafka:29092"
    groupId := "nvidia-disruptions-sink-v2"
    autoOffsetReset := "earliest"
    enableAutoCommit := true
    sessionTimeoutMs := some 6000 }

/-- `KAFKA_CONF` of `stations_sink.py` (lines 9-14). -/
def stationsSinkKafkaConf : KafkaConf :=
  { bootstrapServers := "kafka:29092"
    groupId := "stations-sink-text-v1"
    autoOffsetReset := "earliest"
    enableAutoCommit := true }

/-- A disruption record as built by the producer's `to_copy`
(`disturbance_producer.py` lines 117-126) and consumed by the sink. -/
structure DisruptionDoc where
  id : String
  status : String := ""
  periodBegin : String := ""
  periodEnd : String := ""
  severity : String := ""
  title : String := ""
  description : String := ""
  updated_at : String := ""
  mode : String
deriving DecidableEq, Repr

/-- A message on the disruption topic: a `CLEAR_ALERTS` control message
carrying an optional mode, or a data record. -/
inductive SinkMsg where
  | control (mode : Option String)
  | data (doc : DisruptionDoc)
deriving DecidableEq, Repr

/-- What happens when the sink processes one data record: indexed fine,
the embedding call failed (record skipped, `disturbance_sink.py` lines
111-112), or `es.index` raised (caught by the outer handler, lines
114-121). -/
inductive RecOutcome where
  | ok
  | embedFail
  | esFail
deriving DecidableEq, Repr

/-- The fixed retry delay of the sink's outer exception handler,
`time.sleep(5)` (`disturbance_sink.py` line 116). -/
def sinkRetryDelaySeconds : Nat := 5

/-- One consumer session of `run_sink`'s inner loop
(`disturbance_sink.py` lines 71-112) over the remaining messages, with
`pos` the absolute offset of the next message.  Returns the list of data
offsets processed, the consumer's stored offset when the session ends
(each `poll` stores the delivered offset + 1), and whether the session
was aborted by an `es.index` exception. -/
def sinkRun (outcome : Nat → RecOutcome) :
    List SinkMsg → Nat → List Nat × Nat × Bool
  | [], pos => ([], pos, false)
  | m :: rest, pos =>
    match m with
    | .control _ => sinkRun outcome rest (pos + 1)
    | .data _ =>
      match outcome pos with
      | .esFail => ([pos], pos + 1, true)
      | _ =>
        let r := sinkRun outcome rest (pos + 1)
        (pos :: r.1, r.2)

/-- The offset committed when the consumer is closed (the `finally`
branch of `run_sink`, lines 117-121): with `enable.auto.commit = true`
librdkafka commits the stored offset on close. -/
def commitOnClose (conf : KafkaConf) (stored committedBefore : Nat) : Nat :=
  if conf.enableAutoCommit then stored else committedBefore

/-- The session started after the retry backoff: a fresh consumer in the
same group resumes from the committed offset. -/
def restartedRun (outcome : Nat → RecOutcome) (msgs : List SinkMsg)
    (committed : Nat) : List Nat × Nat × Bool :=
  sinkRun outcome (msgs.drop committed) committed

/-! ## Index documents, document ids and upserts -/

/-- An Elasticsearch index modelled as an association list keyed by the
document `_id`; `esUpsert` models `es.index(id=k, document=v)`:
replace-if-exists keyed by `_id`. -/
def esUpsert {α : Type} (store : List (String × α)) (k : String) (v : α) :
    List (String × α) :=
  store.filter (fun p => p.1 ≠ k) ++ [(k, v)]

/-- How many documents of the index carry the given `_id`. -/
def countId {α : Type} (store : List (String × α)) (k : String) : Nat :=
  (store.filter (fun p => p.1 = k)).length

/-- The document stored under the given `_id`. -/
def getDoc {α : Type} (store : List (String × α)) (k : String) : Option α :=
  (store.find? (fun p => p.1 = k)).map (·.2)

/-- The document id used by the disruption sink,
`f"{data.get('id')}::{data.get('mode')}"` (`disturbance_sink.py`
line 108). -/
def disruptionDocId (d : DisruptionDoc) : String :=
  d.id ++ "::" ++ d.mode

/-- A station record as published by the station producer
(`station_producer.py` lines 122-131); coordinates are the upstream's
string-typed lat/lon. -/
structure StationRecord where
  id : String
  name : String
  lat : String := ""
  lon : String := ""
  mode : String
deriving DecidableEq, Repr

/-- The document id of the station sink's per-record indexing path,
`es.index(index=INDEX_NAME, id=data['name'], document=data)`
(`stations_sink.py` line 130): the bare station name.  (The source file
interleaves two generations of the sink — its line-104 `try` block has no
handler — so both its indexing paths are embedded as written.) -/
def stationsDocIdRecord (d : StationRecord) : String :=
  d.name

/-- The document id of the station sink's bulk path,
`f"{mode}:{doc['id']}"` with `mode = (data.get("mode") or
"").strip().lower()` (`stations_sink.py` lines 85-99). -/
def stationsDocIdBulk (d : StationRecord) : String :=
  pyLower (pyStrip d.mode) ++ ":" ++ d.id

/-! ## Clear-by-query handling in the sinks -/

/-- The body of an Elasticsearch delete-by-query issued by the sinks. -/
inductive EsQueryBody where
  | term (field : String) (value : String)
  | matchAll
deriving DecidableEq, Repr

/-- A delete-by-query request with its conflict policy. -/
structure DeleteByQueryReq where
  query : EsQueryBody
  conflicts : String
deriving DecidableEq, Repr

/-- The delete-by-query a sink issues for a `CLEAR_ALERTS` control
message (`disturbance_sink.py` lines 85-97, `stations_sink.py` lines
110-127): a `term` query on `mode` when the control's mode is truthy,
`match_all` otherwise, always with `conflicts="proceed"`. -/
def clearDeleteReq (mode : Option String) : DeleteByQueryReq :=
  if pyTruthy mode then ⟨.term "mode" (mode.getD ""), "proceed"⟩
  else ⟨.matchAll, "proceed"⟩

/-- An indexed document as seen by the clear queries; `mode` is the only
field the issued queries inspect. -/
structure IndexedDoc where
  mode : String
  body : String := ""
deriving DecidableEq, Repr

/-- Whether a document matches a query body; the sinks only ever issue
`term` queries on the `mode` field. -/
def matchesQuery (q : EsQueryBody) (d : IndexedDoc) : Bool :=
  match q with
  | .term f v => if f = "mode" then d.mode = v else false
  | .matchAll => true

/-- Executing a delete-by-query over the index. -/
def applyDeleteByQuery (req : DeleteByQueryReq) (store : List IndexedDoc) :
    List IndexedDoc :=
  store.filter (fun d => !matchesQuery req.query d)

/-! ## Producer publish traces (`disturbance_producer.py`,
`station_producer.py`) -/

/-- One physical/commercial mode group (`Modes` / `MODES` entries). -/
structure ModeEntry where
  id : String
  name : String
deriving DecidableEq, Repr

/-- `Modes` of `disturbance_producer.py` (lines 16-21). -/
def Modes : List ModeEntry :=
  [⟨"physical_mode:Bus", "Bus"⟩,
   ⟨"physical_mode:Metro", "Metro"⟩,
   ⟨"physical_mode:RapidTransit", "RER"⟩,
   ⟨"physical_mode:Tramway", "Tramway"⟩]

/-- `TOPIC` of `disturbance_producer.py` (line 10): every group's
messages go to this one topic. -/
def TOPIC : String := "paris-disruptions-metro"

/-- `MODES` of `station_producer.py` (lines 29-33). -/
def STATION_MODES : List ModeEntry :=
  [⟨"commercial_mode:Bus", "Bus"⟩,
   ⟨"commercial_mode:Metro", "Métro"⟩,
   ⟨"commercial_mode:RapidTransit", "RER"⟩,
   ⟨"commercial_mode:Tramway", "Tramway"⟩]

/-- The station producer's topic variable (`station_producer.py`
line 47). -/
def stationsTopic : String := "stations"

/-- One message of a raw disruption, with its channel types. -/
structure RawMessage where
  text : String := ""
  channelTypes : List String := []
deriving DecidableEq, Repr

/-- A raw disruption of the line-reports response, as read by the
producer. -/
structure RawDisruption where
  id : String
  status : String := ""
  tags : List String := []
  messages : List RawMessage := []
  severityName : String := ""
  periodBegin : String := ""
  periodEnd : String := ""
deriving DecidableEq, Repr

/-- The parsed line-reports response (its `disruptions` array). -/
structure DiscApiResponse where
  disruptions : List RawDisruption := []
deriving DecidableEq, Repr

/-- `clean_text` (`disturbance_producer.py` lines 36-46): strip a few
HTML tags and whitespace; the Python empty/None guard returns `""`,
which the replacement pipeline also yields on empty input. -/
def cleanText (text : String) : String :=
  pyStrip (replaceAll (replaceAll (replaceAll (replaceAll
    (replaceAll text "<br/>" " ") "<b>" "") "</b>" "") "<p>" "") "</p>" "")

/-- The title/description extraction loop over a disruption's messages
(`disturbance_producer.py` lines 109-114): later matching messages
overwrite earlier ones. -/
def extractTitleDesc (msgs : List RawMessage) : String × String :=
  msgs.foldl (fun td m =>
    if m.channelTypes.contains "title" then (cleanText m.text, td.2)
    else if m.channelTypes.contains "web" then (td.1, cleanText m.text)
    else td) ("", "")

/-- `to_copy` (`disturbance_producer.py` lines 117-126); `now` is the
wall-clock ISO timestamp `datetime.now().isoformat()`. -/
def toCopy (now : String) (modeName : String) (d : RawDisruption) :
    DisruptionDoc :=
  let td := extractTitleDesc d.messages
  { id := d.id, status := d.status, periodBegin := d.periodBegin
    periodEnd := d.periodEnd, severity := d.severityName
    title := td.1, description := td.2, updated_at := now
    mode := modeName }

/-- A value published to Kafka by a producer. -/
inductive KVal where
  | wipe (control : String) (mode : String)
  | disc (doc : DisruptionDoc)
  | stat (rec : StationRecord)
deriving DecidableEq, Repr

/-- One producer action: a `produce(topic, key, value)` call or a
`flush()`. -/
inductive PEvent where
  | prod (topic : String) (key : Option String) (val : KVal)
  | flush
deriving DecidableEq, Repr

/-- Is the event a data-record publish (not a wipe, not a flush)? -/
def isDataEvent : PEvent → Bool
  | .prod _ _ (.wipe _ _) => false
  | .prod _ _ _ => true
  | .flush => false

/-- The publish trace of one mode group of the disruption producer's
`run_producer` (`disturbance_producer.py` lines 67-137): on a successful
fetch, the wipe control message is produced and flushed, then every
disruption carrying the `Actualité` tag is produced keyed by its id, then
a final flush; a failed fetch is swallowed by the per-mode handler and
publishes nothing. -/
def disturbanceGroupTrace (now : String) (m : ModeEntry)
    (resp : Option DiscApiResponse) : List PEvent :=
  match resp with
  | none => []
  | some r =>
    [.prod TOPIC none (.wipe "CLEAR_ALERTS" m.name), .flush] ++
      ((r.disruptions.filter (fun d => d.tags.contains "Actualité")).map
        (fun d => .prod TOPIC (some d.id) (.disc (toCopy now m.name d)))) ++
      [.flush]

/-- One full run of the disruption producer: the per-group traces in
`Modes` order. -/
def runProducerTrace (now : String)
    (fetch : ModeEntry → Option DiscApiResponse) :
    List (String × List PEvent) :=
  Modes.map (fun m => (m.name, disturbanceGroupTrace now m (fetch m)))

/-- A raw stop area of the PRIM response, as read by the station
producer. -/
structure RawStation where
  id : String
  name : String
  lat : String := ""
  lon : String := ""
deriving DecidableEq, Repr

/-- The entry the station producer publishes for one stop area
(`station_producer.py` lines 122-131). -/
def stationEntryOf (m : ModeEntry) (st : RawStation) : StationRecord :=
  ⟨st.id, st.name, st.lat, st.lon, m.name⟩

/-- The publish trace of one mode group of the station producer's
`run_producer` (`station_producer.py` lines 51-155): wipe, flush, the
station entries keyed by their id, the batch flush of line 145 and the
per-iteration `finally` flush of line 155.  A failed fetch publishes
nothing for the group.  (The file's `delivery_report` callback and the
`main` entry point it invokes are not defined anywhere in it; the trace
models the sequence of produce/flush calls as written.) -/
def stationGroupTrace (m : ModeEntry)
    (fetched : Option (List RawStation)) : List PEvent :=
  match fetched with
  | none => []
  | some sts =>
    [.prod stationsTopic none (.wipe "CLEAR_ALERTS" m.name), .flush] ++
      sts.map (fun st =>
        .prod stationsTopic (some st.id) (.stat (stationEntryOf m st))) ++
      [.flush, .flush]

/-! ## Vocabulary for the claim statements -/

/-- The hard-block test of `_allowed_section` (tools.py lines 325-328):
tram or TER indicated by the normalized commercial mode or network
name. -/
def tramTerIndicated (cm nm : String) : Bool :=
  (containsSub cm "tram" || containsSub nm "tram") ||
    (containsSub cm "ter" || containsSub nm "ter")

/-- The RER-equivalent rail family test of `_allowed_section`
(tools.py line 339). -/
def rerFamily (cm : String) : Bool :=
  containsSub cm "rer" || containsSub cm "rapid" ||
    containsSub cm "transilien"

/-- Erase the (never-read) disruption link ids of a section. -/
def stripSectionLinks (s : Section) : Section :=
  { s with links := [] }

/-- Erase the (never-read) disruption link ids of every section of a
journey. -/
def stripJourneyLinks (j : Journey) : Journey :=
  { j with sections := j.sections.map stripSectionLinks }

/-- A concrete rendered public-transport leg whose link id `D1` matches a
disruption embedded in the same response. -/
def c1ExSection : Section :=
  { type_ := "public_transport", fromName := "Bastille", toName := "Nation"
    duration := some 120
    di := { commercial_mode := some "Metro", code := some "1"
            direction := some "Chateau de Vincennes" }
    links := ["D1"] }

/-- A concrete journeys response embedding a disruption (`D1`,
message `ALERT123`) whose id matches the rendered leg's link. -/
def c1ExData : JourneysResponse :=
  { journeys := [{ duration := some 600, nb_transfers := some 0
                   sections := [c1ExSection] }]
    disruptions := [{ id := "D1", message := "ALERT123" }] }

/-- A concrete tram section: `public_transport`, commercial mode
`Tramway`. -/
def tramSectionEx : Section :=
  { type_ := "public_transport"
    di := { commercial_mode := some "Tramway" } }

/-- A concrete metro section: `public_transport`, commercial mode
`Metro`, line 1. -/
def metroSectionEx : Section :=
  { type_ := "public_transport"
    di := { commercial_mode := some "Metro", code := some "1" } }

/-- A one-journey response whose only section is the metro section. -/
def metroDataEx : JourneysResponse :=
  { journeys := [{ sections := [metroSectionEx] }] }

/-- A two-data-record topic for the sink counterexample. -/
def c3Msgs : List SinkMsg :=
  [.data { id := "a", mode := "Metro" }, .data { id := "b", mode := "Metro" }]

/-- An environment in which indexing the record at offset 0 raises in
`es.index` and everything else succeeds. -/
def c3Outcome : Nat → RecOutcome :=
  fun i => if i = 0 then .esFail else .ok

/-- A concrete station record for the document-id counterexample. -/
def c4StationRec : StationRecord :=
  { id := "stop_area:IDFM:71091", name := "Châtelet", lat := "48.858"
    lon := "2.347", mode := "metro" }

/-- A distinct station record (different id and mode) sharing the same
name. -/
def c4StationRec2 : StationRecord :=
  { id := "stop_area:IDFM:99999", name := "Châtelet", lat := "48.0"
    lon := "2.0", mode := "bus" }

/-- A concrete disruption record for the idempotence witness. -/
def c4DiscDoc : DisruptionDoc :=
  { id := "d1", mode := "Metro" }

/-- A concrete indexed bus document for the clear-scoping
counterexample. -/
def c5DocBus : IndexedDoc :=
  { mode := "bus", body := "doc" }

/-- A concrete raw disruption tagged `Actualité`. -/
def c7Disr1 : RawDisruption :=
  { id := "d1", tags := ["Actualité"]
    messages := [{ text := "<b>Works</b>", channelTypes := ["title"] }] }

/-- A concrete raw disruption without the `Actualité` tag. -/
def c7Disr2 : RawDisruption :=
  { id := "d2", tags := ["Autre"] }

/-- A concrete line-reports response: one disruption tagged `Actualité`,
one untagged. -/
def c7Resp : DiscApiResponse :=
  { disruptions := [c7Disr1, c7Disr2] }

/-- The data event the disruption producer publishes for `c7Disr1` in the
Metro group. -/
def c7DataEv : PEvent :=
  .prod TOPIC (some "d1") (.disc (toCopy "T" "Metro" c7Disr1))

/-- The data event the disruption producer publishes for `c7Disr1` in the
Tramway group. -/
def c10DataEv : PEvent :=
  .prod TOPIC (some "d1") (.disc (toCopy "T" "Tramway" c7Disr1))

/-- The Metro group entry of the disruption producer. -/
def metroModeEntry : ModeEntry :=
  ⟨"physical_mode:Metro", "Metro"⟩

/-- The Tramway group entry of the disruption producer (`Modes[3]`). -/
def tramwayModeEntry : ModeEntry :=
  ⟨"physical_mode:Tramway", "Tramway"⟩

/-- A concrete fetched station list for the station-producer witness. -/
def c7Stations : List RawStation :=
  [{ id := "stop_area:IDFM:71091", name := "Vaugirard", lat := "48.840431"
     lon := "2.300891" }]

end PTRag

namespace PTRag

/-! ## Helper lemmas -/

/-- Closed-form of the decision structure of `_allowed_section` after the
type guard: hard block wins, then the allow list. -/
theorem allowedIteKey (a b c d e f g r : Bool) :
    (if a || b then false
     else if c || d then false
     else if e then true
     else if f then true
     else if g then (if r then true else true)
     else false) = (!((a || b) || (c || d)) && (e || f || g)) := by
  cases a <;> cases b <;> cases c <;> cases d <;> cases e <;> cases f <;>
    cases g <;> cases r <;> rfl

/-- `_allowed_section` on a `public_transport` section equals the
hard-block/allow-list boolean formula. -/
theorem allowedSection_eq (s : Section) (h : s.type_ = "public_transport") :
    allowedSection s =
      (!tramTerIndicated (normalizeText (getOr s.di.commercial_mode))
          (normalizeText (safeNetworkName s.di)) &&
        (containsSub (normalizeText (getOr s.di.commercial_mode)) "metro" ||
         containsSub (normalizeText (getOr s.di.commercial_mode)) "bus" ||
         rerFamily (normalizeText (getOr s.di.commercial_mode)))) := by
  unfold allowedSection
  rw [if_neg (by simp [h])]
  exact allowedIteKey _ _ _ _ _ _ _ _

/-! ## C8 — duration formatting -/

/-- C8: for every duration of `s` seconds the rendered duration shows the
whole number of minutes `s / 60` (floor division): below one hour it is
rendered as `"{s/60} min"`, at one hour or more as hours plus a
two-digit minute remainder whose total is exactly `s / 60`; in
particular `duration=125` renders as `"2 min"`. -/
theorem c8_duration_floor_minutes (s : Nat) :
    (s / 60 < 60 → formatDuration (some s) = toString (s / 60) ++ " min")
    ∧ (60 ≤ s / 60 →
        formatDuration (some s) =
          toString (s / 60 / 60) ++ " h " ++ pad2 (s / 60 % 60) ++ " min"
        ∧ (s / 60 / 60) * 60 + s / 60 % 60 = s / 60)
    ∧ formatDuration (some 125) = "2 min" := by
  refine ⟨?_, ?_, by decide⟩
  · intro h
    simp only [formatDuration]
    rw [if_pos h]
  · intro h
    constructor
    · simp only [formatDuration]
      rw [if_neg (Nat.not_lt.mpr h)]
    · omega

/-- Witness for C8 at `s = 125` (sub-hour branch) and `s = 3725`
(hour branch). -/
theorem c8_duration_floor_minutes_witness :
    (125 / 60 < 60 ∧
      formatDuration (some 125) = toString (125 / 60) ++ " min")
    ∧ (60 ≤ 3725 / 60 ∧
        formatDuration (some 3725) =
          toString (3725 / 60 / 60) ++ " h " ++ pad2 (3725 / 60 % 60) ++
            " min") :=
  ⟨⟨by decide, (c8_duration_floor_minutes 125).1 (by decide)⟩,
   ⟨by decide, ((c8_duration_floor_minutes 3725).2.1 (by decide)).1⟩⟩

/-! ## C2 — public-transport section mode filtering -/

/-- C2: a `public_transport` section is allowed iff no tram/TER keyword
is indicated by its normalized commercial mode or network name and its
commercial mode indicates metro, bus, or the RER-equivalent rail family
(RER / rapid-transit / Transilien); any tram/TER indication rejects the
section regardless of all other fields, so a section with commercial
mode `"Tramway"` is never allowed (and a journey all of whose
public-transport sections are tram is never eligible) while a `"Metro"`
section is. -/
theorem c2_allowed_section_mode_filter :
    (∀ (s : Section), s.type_ = "public_transport" →
      (allowedSection s = true ↔
        (tramTerIndicated (normalizeText (getOr s.di.commercial_mode))
            (normalizeText (safeNetworkName s.di)) = false ∧
          (containsSub (normalizeText (getOr s.di.commercial_mode))
              "metro" = true ∨
           containsSub (normalizeText (getOr s.di.commercial_mode))
              "bus" = true ∨
           rerFamily (normalizeText (getOr s.di.commercial_mode)) = true))))
    ∧ (∀ (s : Section), s.type_ = "public_transport" →
        getOr s.di.commercial_mode = "Tramway" → allowedSection s = false)
    ∧ (∀ (j : Journey),
        (∀ sec ∈ j.sections, sec.type_ = "public_transport" →
          getOr sec.di.commercial_mode = "Tramway") →
        eligibleJourney j = false)
    ∧ eligibleJourney { sections := [metroSectionEx] } = true := by
  have block : ∀ (s : Section), s.type_ = "public_transport" →
      getOr s.di.commercial_mode = "Tramway" → allowedSection s = false := by
    intro s h hcm
    rw [allowedSection_eq s h, hcm]
    have ht : containsSub (normalizeText "Tramway") "tram" = true := by
      decide
    simp [tramTerIndicated, ht]
  refine ⟨?_, block, ?_, by decide⟩
  · intro s h
    rw [allowedSection_eq s h]
    simp [Bool.and_eq_true, Bool.not_eq_true', Bool.or_eq_true, or_assoc]
  · intro j hall
    unfold eligibleJourney
    rw [List.any_eq_false]
    intro sec hsec
    by_cases htype : sec.type_ = "public_transport"
    · simp [htype, block sec htype (hall sec hsec htype)]
    · simp [htype]

/-- Witness for C2: the Tramway rejection applied to a concrete
section. -/
theorem c2_allowed_section_mode_filter_witness :
    tramSectionEx.type_ = "public_transport"
    ∧ getOr tramSectionEx.di.commercial_mode = "Tramway"
    ∧ allowedSection tramSectionEx = false :=
  ⟨by decide, by decide,
    c2_allowed_section_mode_filter.2.1 tramSectionEx (by decide) (by decide)⟩

/-! ## C6 — journey selection in `get_itinerary` -/

/-- C6: for a non-empty journeys response `get_itinerary` renders at most
3 journeys; when at least one journey is eligible only eligible journeys
are rendered, and when none is eligible the unfiltered top journeys are
rendered instead of an empty result. -/
theorem c6_journey_selection (data : JourneysResponse)
    (h : data.journeys ≠ []) :
    ((useJourneys data.journeys).take 3).length ≤ 3
    ∧ (filteredJourneys data.journeys ≠ [] →
        ∀ j ∈ (useJourneys data.journeys).take 3, eligibleJourney j = true)
    ∧ (filteredJourneys data.journeys = [] →
        (useJourneys data.journeys).take 3 = data.journeys.take 3)
    ∧ renderJourneys data =
        joinLines ("## Best options (Metro + Bus + RER)" ::
          renderOptions ((useJourneys data.journeys).take 3) 1) := by
  refine ⟨List.length_take_le 3 _, ?_, ?_, ?_⟩
  · intro hne j hj
    have hj' := List.mem_of_mem_take hj
    unfold useJourneys at hj'
    rw [if_neg hne] at hj'
    exact (List.mem_filter.mp hj').2
  · intro he
    unfold useJourneys
    rw [if_pos he]
  · unfold renderJourneys
    rw [if_neg h]

/-- Witness for C6 at a concrete one-journey response. -/
theorem c6_journey_selection_witness :
    metroDataEx.journeys ≠ []
    ∧ ((useJourneys metroDataEx.journeys).take 3).length ≤ 3 :=
  ⟨by decide, (c6_journey_selection metroDataEx (by decide)).1⟩

/-! ## C1 — disruption overlay -/

/-- The section allow test never reads the link ids. -/
theorem allowedSection_strip (s : Section) :
    allowedSection (stripSectionLinks s) = allowedSection s := rfl

/-- Section rendering never reads the link ids. -/
theorem formatSection_strip (s : Section) (i : Nat) :
    formatSection (stripSectionLinks s) i = formatSection s i := rfl

/-- The journey-body rendering loop never reads the link ids. -/
theorem formatJourneyAux_strip (l : List Section) :
    ∀ (i : Nat),
      formatJourneyAux (l.map stripSectionLinks) i = formatJourneyAux l i := by
  induction l with
  | nil => intro i; rfl
  | cons s rest ih =>
    intro i
    have ht : (stripSectionLinks s).type_ = s.type_ := rfl
    simp only [List.map_cons, formatJourneyAux, ht, allowedSection_strip,
      formatSection_strip, ih]

/-- Journey rendering never reads the link ids. -/
theorem formatJourney_strip (j : Journey) :
    formatJourney (stripJourneyLinks j) = formatJourney j := by
  have hs : (stripJourneyLinks j).sections = j.sections.map stripSectionLinks :=
    rfl
  have hd : (stripJourneyLinks j).duration = j.duration := rfl
  have hn : (stripJourneyLinks j).nb_transfers = j.nb_transfers := rfl
  simp only [formatJourney, hs, hd, hn, formatJourneyAux_strip]

/-- Journey eligibility never reads the link ids. -/
theorem eligibleJourney_strip (j : Journey) :
    eligibleJourney (stripJourneyLinks j) = eligibleJourney j := by
  have hs : (stripJourneyLinks j).sections = j.sections.map stripSectionLinks :=
    rfl
  simp only [eligibleJourney, hs, List.any_map]
  rfl

/-- The option-rendering loop never reads the link ids. -/
theorem renderOptions_strip (l : List Journey) :
    ∀ (i : Nat),
      renderOptions (l.map stripJourneyLinks) i = renderOptions l i := by
  induction l with
  | nil => intro i; rfl
  | cons j rest ih =>
    intro i
    simp only [List.map_cons, renderOptions, formatJourney_strip, ih]

/-- The journey selection never reads the link ids. -/
theorem useJourneys_strip (js : List Journey) :
    useJourneys (js.map stripJourneyLinks) =
      (useJourneys js).map stripJourneyLinks := by
  unfold useJourneys filteredJourneys
  rw [List.filter_map]
  have hcomp : (eligibleJourney ∘ stripJourneyLinks) = eligibleJourney :=
    funext eligibleJourney_strip
  rw [hcomp]
  by_cases he : js.filter eligibleJourney = []
  · rw [he]
    simp [he]
  · have hm : (js.filter eligibleJourney).map stripJourneyLinks ≠ [] := by
      simp [he]
    rw [if_neg hm, if_neg he]

/-- C1 counterexample: a concrete journeys response whose rendered
public-transport leg (`Metro 1`) has link id `D1` matching the embedded
disruption `D1` with message `ALERT123`, yet the rendered output does
not contain the disruption's message text anywhere. -/
theorem c1_disruption_overlay_counterexample :
    c1ExData.disruptions = [{ id := "D1", message := "ALERT123" }]
    ∧ c1ExSection.links.contains "D1" = true
    ∧ (c1ExData.journeys.map Journey.sections) = [[c1ExSection]]
    ∧ containsSub (renderJourneys c1ExData) "Metro 1" = true
    ∧ containsSub (renderJourneys c1ExData) "ALERT123" = false := by
  refine ⟨rfl, rfl, rfl, ?_, ?_⟩ <;> decide

/-- C1 amended: `get_itinerary` builds no disruption-impact map and
appends no disruption message to any leg — the rendering is invariant
under the response's embedded disruption list and under every section's
link ids. -/
theorem c1_amended_no_disruption_overlay (js : List Journey)
    (d d' : List RespDisruption) :
    renderJourneys { journeys := js, disruptions := d } =
      renderJourneys { journeys := js, disruptions := d' }
    ∧ renderJourneys { journeys := js.map stripJourneyLinks, disruptions := d }
        = renderJourneys { journeys := js, disruptions := d } := by
  refine ⟨rfl, ?_⟩
  unfold renderJourneys
  by_cases hjs : js = []
  · subst hjs; rfl
  · have hm : js.map stripJourneyLinks ≠ [] := by simp [hjs]
    rw [if_neg hm, if_neg hjs, useJourneys_strip]
    simp only [← List.map_take, renderOptions_strip]

/-! ## C9 â raw substring blocking without external queries -/

/-- A string whose normalization contains a blocked keyword does not
strip to the empty string (so the empty-name guard of `get_station_id`
does not fire first). -/
theorem blocked_strip_ne (s : String) (h : containsBlocked s = true) :
    pyStrip s ≠ "" := by
  intro he
  have hl : pyStripList s.data = [] := by
    simpa [pyStrip] using congrArg String.data he
  have hn : normalizeText s = "" := by
    unfold normalizeText
    rw [hl]
    rfl
  unfold containsBlocked at h
  rw [hn] at h
  exact absurd h (by decide)

/-- The blocked guard of `get_station_id` (tools.py lines 234-235). -/
theorem getStationIdCore_blocked (name : String) (env : Env)
    (h : containsBlocked name = true) :
    getStationIdCore name env = (.notSupported, []) := by
  have h1 : pyStrip name ≠ "" := blocked_strip_ne name h
  have h2 : name ≠ "" := by
    intro he
    exact h1 (by rw [he]; rfl)
  unfold getStationIdCore
  rw [if_neg (by simp [h1, h2]), if_pos h]

/-- C9: the blocked-mode check is a raw substring test on the
accent-folded, lowercased input — `_contains_blocked` holds iff the
normalized text contains `"tram"` or `"ter"` anywhere — and whenever it
holds (also inside ordinary words such as `Nanterre` or
`Gare d'Austerlitz`), `get_station_id` and `get_itinerary` return the
not-supported rejection with an empty external-query trace: neither the
station index nor the upstream API is queried. -/
theorem c9_blocked_substring_no_queries :
    (∀ (t : String), containsBlocked t = true ↔
        (containsSub (normalizeText t) "tram" = true ∨
         containsSub (normalizeText t) "ter" = true))
    ∧ (∀ (name : String) (env : Env), containsBlocked name = true →
        getStationId name env = (notSupportedMsg, []))
    ∧ (∀ (s e : String) (env : Env), s ≠ "" → e ≠ "" →
        (containsBlocked s = true ∨ containsBlocked e = true) →
        getItinerary s e env = (notSupportedMsg, []))
    ∧ containsBlocked "Nanterre" = true
    ∧ containsBlocked "Gare d\x27Austerlitz" = true := by
  refine ⟨?_, ?_, ?_, by decide, by decide⟩
  · intro t
    unfold containsBlocked BLOCKED_KEYWORDS
    simp
  · intro name env h
    unfold getStationId
    rw [getStationIdCore_blocked name env h]
    rfl
  · intro s e env hs he hb
    unfold getItinerary
    rw [if_neg (by simp [hs, he]), if_pos ?_]
    rcases hb with h | h <;> simp [h]

/-- Witness for C9: `Nanterre` (blocked through the substring `ter` of an
ordinary word) applied to `get_station_id`, and a blocked itinerary
endpoint applied to `get_itinerary`, in the all-failing environment. -/
theorem c9_blocked_substring_no_queries_witness :
    containsBlocked "Nanterre" = true
    ∧ getStationId "Nanterre" emptyEnv = (notSupportedMsg, [])
    ∧ "Chatelet" ≠ ""
    ∧ "Gare d\x27Austerlitz" ≠ ""
    ∧ containsBlocked "Gare d\x27Austerlitz" = true
    ∧ getItinerary "Chatelet" "Gare d\x27Austerlitz" emptyEnv =
        (notSupportedMsg, []) :=
  ⟨by decide,
   c9_blocked_substring_no_queries.2.1 "Nanterre" emptyEnv (by decide),
   by decide, by decide, by decide,
   c9_blocked_substring_no_queries.2.2.1 "Chatelet" "Gare d\x27Austerlitz"
     emptyEnv (by decide) (by decide) (Or.inr (by decide))⟩

/-! ## C3 — consumer offsets versus indexing failures -/

/-- Every data offset processed by a session is at least the session's
start position. -/
theorem sinkRun_mono (outcome : Nat → RecOutcome) (l : List SinkMsg) :
    ∀ (pos : Nat), ∀ j ∈ (sinkRun outcome l pos).1, pos ≤ j := by
  induction l with
  | nil =>
    intro pos j hj
    simp [sinkRun] at hj
  | cons m rest ih =>
    intro pos j hj
    cases m with
    | control mo =>
      have h' : (sinkRun outcome (SinkMsg.control mo :: rest) pos).1 =
          (sinkRun outcome rest (pos + 1)).1 := rfl
      rw [h'] at hj
      exact le_trans (Nat.le_succ pos) (ih (pos + 1) j hj)
    | data doc =>
      cases ho : outcome pos with
      | esFail =>
        simp [sinkRun, ho] at hj
        omega
      | ok =>
        simp only [sinkRun, ho] at hj
        rcases List.mem_cons.mp hj with h | h
        · omega
        · exact le_trans (Nat.le_succ pos) (ih (pos + 1) j h)
      | embedFail =>
        simp only [sinkRun, ho] at hj
        rcases List.mem_cons.mp hj with h | h
        · omega
        · exact le_trans (Nat.le_succ pos) (ih (pos + 1) j h)

/-- A session that aborts did so on an `es.index` failure at the offset
just below its stored offset. -/
theorem sinkRun_abort (outcome : Nat → RecOutcome) (l : List SinkMsg) :
    ∀ (pos : Nat) (ps : List Nat) (st : Nat),
      sinkRun outcome l pos = (ps, st, true) →
      outcome (st - 1) = .esFail ∧ pos + 1 ≤ st := by
  induction l with
  | nil =>
    intro pos ps st h
    simp [sinkRun, Prod.mk.injEq] at h
  | cons m rest ih =>
    intro pos ps st h
    cases m with
    | control mo =>
      have h' : sinkRun outcome rest (pos + 1) = (ps, st, true) := h
      obtain ⟨h1, h2⟩ := ih (pos + 1) ps st h'
      exact ⟨h1, by omega⟩
    | data doc =>
      cases ho : outcome pos with
      | esFail =>
        simp only [sinkRun, ho, Prod.mk.injEq] at h
        obtain ⟨h1, h2, -⟩ := h
        refine ⟨?_, by omega⟩
        rw [← h2]
        simpa using ho
      | ok =>
        simp only [sinkRun, ho] at h
        have h2 : (sinkRun outcome rest (pos + 1)).2 = (st, true) := by
          have := congrArg Prod.snd h
          simpa using this
        have h' : sinkRun outcome rest (pos + 1) =
            ((sinkRun outcome rest (pos + 1)).1, st, true) := by
          rw [← h2]
        obtain ⟨h1', h2'⟩ := ih (pos + 1) _ st h'
        exact ⟨h1', by omega⟩
      | embedFail =>
        simp only [sinkRun, ho] at h
        have h2 : (sinkRun outcome rest (pos + 1)).2 = (st, true) := by
          have := congrArg Prod.snd h
          simpa using this
        have h' : sinkRun outcome rest (pos + 1) =
            ((sinkRun outcome rest (pos + 1)).1, st, true) := by
          rw [← h2]
        obtain ⟨h1', h2'⟩ := ih (pos + 1) _ st h'
        exact ⟨h1', by omega⟩

/-- C3 counterexample: with the sinks' `enable.auto.commit = true`
configuration, a session over two data records in which indexing record
0 raises aborts with stored offset 1; the close of the consumer commits
offset 1 — past the failed record — and the restarted session processes
only offset 1, never reprocessing record 0. -/
theorem c3_offset_counterexample :
    disturbanceSinkKafkaConf.enableAutoCommit = true
    ∧ stationsSinkKafkaConf.enableAutoCommit = true
    ∧ c3Outcome 0 = .esFail
    ∧ sinkRun c3Outcome c3Msgs 0 = ([0], 1, true)
    ∧ commitOnClose disturbanceSinkKafkaConf 1 0 = 1
    ∧ 0 < commitOnClose disturbanceSinkKafkaConf 1 0
    ∧ (restartedRun c3Outcome c3Msgs 1).1 = [1]
    ∧ (0 ∈ (restartedRun c3Outcome c3Msgs 1).1 → False) := by
  decide

/-- C3 amended: because both sinks set `enable.auto.commit = true`, the
committed offset does advance past a record whose `es.index` call
failed — a session aborted by an indexing failure at offset `st - 1` has
its stored offset `st` committed on consumer close, and the session
restarted after the fixed 5-second backoff only processes offsets
strictly beyond the failed record, which is therefore never
reprocessed. -/
theorem c3_amended_offset_advances (outcome : Nat → RecOutcome)
    (msgs : List SinkMsg) (ps : List Nat) (st : Nat)
    (h : sinkRun outcome msgs 0 = (ps, st, true)) :
    disturbanceSinkKafkaConf.enableAutoCommit = true
    ∧ stationsSinkKafkaConf.enableAutoCommit = true
    ∧ sinkRetryDelaySeconds = 5
    ∧ outcome (st - 1) = .esFail
    ∧ commitOnClose disturbanceSinkKafkaConf st 0 = st
    ∧ ∀ j ∈ (restartedRun outcome msgs st).1, st - 1 < j := by
  obtain ⟨h1, h2⟩ := sinkRun_abort outcome msgs 0 ps st h
  refine ⟨rfl, rfl, rfl, h1, rfl, ?_⟩
  intro j hj
  have hm := sinkRun_mono outcome (msgs.drop st) st j hj
  omega

/-- Witness for C3's amended theorem at the concrete two-record topic. -/
theorem c3_amended_offset_advances_witness :
    sinkRun c3Outcome c3Msgs 0 = ([0], 1, true)
    ∧ c3Outcome (1 - 1) = .esFail :=
  ⟨by decide,
    (c3_amended_offset_advances c3Outcome c3Msgs [0] 1 (by decide)).2.2.2.1⟩

/-! ## C4 — document ids and idempotent upserts -/

/-- After an upsert, exactly one document carries the upserted id. -/
theorem countId_esUpsert_self {α : Type} (s : List (String × α)) (k : String)
    (v : α) : countId (esUpsert s k v) k = 1 := by
  unfold countId esUpsert
  rw [List.filter_append]
  have h1 : (s.filter (fun p => p.1 ≠ k)).filter (fun p => p.1 = k) = [] := by
    rw [List.filter_eq_nil_iff]
    intro a ha
    have h2 := (List.mem_filter.mp ha).2
    simp at h2 ⊢
    exact h2
  rw [h1]
  simp

/-- After an upsert, the document stored under the upserted id is the
upserted value. -/
theorem getDoc_esUpsert_self {α : Type} (s : List (String × α)) (k : String)
    (v : α) : getDoc (esUpsert s k v) k = some v := by
  unfold getDoc esUpsert
  rw [List.find?_append]
  have h1 : (s.filter (fun p => p.1 ≠ k)).find? (fun p => p.1 = k) = none := by
    rw [List.find?_eq_none]
    intro a ha
    have h2 := (List.mem_filter.mp ha).2
    simp at h2 ⊢
    exact h2
  rw [h1]
  simp

/-- C4 counterexample: the station sink's per-record indexing path
(`stations_sink.py` line 130) uses the bare station name as the document
id — not the composite `id + mode` uniqueness key in either of its
formattings — so two records with different uniqueness keys but the same
name collapse into a single document holding only the last one. -/
theorem c4_station_docid_counterexample :
    stationsDocIdRecord c4StationRec = "Châtelet"
    ∧ stationsDocIdRecord c4StationRec ≠
        c4StationRec.id ++ "::" ++ c4StationRec.mode
    ∧ stationsDocIdRecord c4StationRec ≠ stationsDocIdBulk c4StationRec
    ∧ stationsDocIdRecord c4StationRec2 = stationsDocIdRecord c4StationRec
    ∧ c4StationRec2.id ≠ c4StationRec.id
    ∧ c4StationRec2.mode ≠ c4StationRec.mode
    ∧ countId (esUpsert (esUpsert [] (stationsDocIdRecord c4StationRec)
        c4StationRec) (stationsDocIdRecord c4StationRec2) c4StationRec2)
        (stationsDocIdRecord c4StationRec) = 1
    ∧ getDoc (esUpsert (esUpsert [] (stationsDocIdRecord c4StationRec)
        c4StationRec) (stationsDocIdRecord c4StationRec2) c4StationRec2)
        (stationsDocIdRecord c4StationRec) = some c4StationRec2 := by
  decide

/-- C4 amended: indexing is an idempotent replace keyed by the document
id — processing a record twice (the second copy possibly carrying
updated fields under the same document id) leaves exactly one indexed
document holding the last processed copy.  The disruption sink's
document id is the composite `id::mode`; the station sink's per-record
path keys by the bare station name (its bulk path keys by `mode:id`),
not by the composite uniqueness key. -/
theorem c4_amended_idempotent_upsert (s : List (String × DisruptionDoc))
    (d d' : DisruptionDoc) (t : List (String × StationRecord))
    (r r' : StationRecord)
    (hd : disruptionDocId d' = disruptionDocId d)
    (hr : stationsDocIdRecord r' = stationsDocIdRecord r) :
    countId (esUpsert (esUpsert s (disruptionDocId d) d)
        (disruptionDocId d') d') (disruptionDocId d) = 1
    ∧ getDoc (esUpsert (esUpsert s (disruptionDocId d) d)
        (disruptionDocId d') d') (disruptionDocId d) = some d'
    ∧ disruptionDocId d = d.id ++ "::" ++ d.mode
    ∧ countId (esUpsert (esUpsert t (stationsDocIdRecord r) r)
        (stationsDocIdRecord r') r') (stationsDocIdRecord r) = 1
    ∧ getDoc (esUpsert (esUpsert t (stationsDocIdRecord r) r)
        (stationsDocIdRecord r') r') (stationsDocIdRecord r) = some r'
    ∧ stationsDocIdRecord r = r.name := by
  rw [hd, hr]
  exact ⟨countId_esUpsert_self _ _ _, getDoc_esUpsert_self _ _ _, rfl,
    countId_esUpsert_self _ _ _, getDoc_esUpsert_self _ _ _, rfl⟩

/-- Witness for C4's amended theorem: the same concrete disruption and
station records processed twice. -/
theorem c4_amended_idempotent_upsert_witness :
    countId (esUpsert (esUpsert [] (disruptionDocId c4DiscDoc) c4DiscDoc)
        (disruptionDocId c4DiscDoc) c4DiscDoc)
        (disruptionDocId c4DiscDoc) = 1 :=
  (c4_amended_idempotent_upsert [] c4DiscDoc c4DiscDoc [] c4StationRec
    c4StationRec rfl rfl).1

/-! ## C5 — clear scoping -/

/-- C5 counterexample: a control message with the non-null scope mode
`""` — for which the claim demands deleting exactly the documents whose
mode equals `""` — makes the sink issue a `match_all` delete (the Python
guard is truthiness, not a null test), deleting a document whose mode is
`"bus"` ≠ `""`. -/
theorem c5_clear_scoping_counterexample :
    clearDeleteReq (some "") = ⟨.matchAll, "proceed"⟩
    ∧ c5DocBus.mode ≠ ""
    ∧ applyDeleteByQuery (clearDeleteReq (some "")) [c5DocBus] = [] := by
  decide

/-- C5 amended: for a control message with a non-null, non-empty scope
mode the sink deletes exactly the indexed documents whose mode equals the
scope mode, keeping every other document; for a null/absent (or empty)
scope mode it deletes all documents; every issued delete-by-query
carries `conflicts="proceed"`. -/
theorem c5_amended_clear_scoping (m : String) (hm : m ≠ "")
    (store : List IndexedDoc) (x : Option String) :
    (∀ d ∈ applyDeleteByQuery (clearDeleteReq (some m)) store, d.mode ≠ m)
    ∧ (∀ d ∈ store, d.mode ≠ m →
        d ∈ applyDeleteByQuery (clearDeleteReq (some m)) store)
    ∧ (∀ d ∈ store, d.mode = m →
        d ∉ applyDeleteByQuery (clearDeleteReq (some m)) store)
    ∧ applyDeleteByQuery (clearDeleteReq none) store = []
    ∧ (clearDeleteReq x).conflicts = "proceed" := by
  have hreq : clearDeleteReq (some m) =
      ⟨.term "mode" m, "proceed"⟩ := by
    unfold clearDeleteReq
    rw [if_pos (by simp [pyTruthy, hm])]
    rfl
  refine ⟨?_, ?_, ?_, ?_, ?_⟩
  · intro d hd
    rw [hreq] at hd
    have h2 := (List.mem_filter.mp hd).2
    simp [matchesQuery] at h2
    exact h2
  · intro d hd hne
    rw [hreq]
    exact List.mem_filter.mpr ⟨hd, by simp [matchesQuery, hne]⟩
  · intro d hd heq hmem
    rw [hreq] at hmem
    have h2 := (List.mem_filter.mp hmem).2
    simp [matchesQuery, heq] at h2
  · unfold applyDeleteByQuery clearDeleteReq
    simp [pyTruthy, matchesQuery]
  · unfold clearDeleteReq
    split <;> rfl

/-- Witness for C5's amended theorem at a concrete store and mode. -/
theorem c5_amended_clear_scoping_witness :
    ("bus" : String) ≠ ""
    ∧ applyDeleteByQuery (clearDeleteReq none) [c5DocBus] = [] :=
  ⟨by decide,
    (c5_amended_clear_scoping "bus" (by decide) [c5DocBus] none).2.2.2.1⟩

/-! ## C7 / C10 — producer trace lemmas -/

/-- Membership in a `[wipe, flush] ++ mid ++ tail` trace decomposes into
the four segments. -/
theorem mem_trace_decomp (w f : PEvent) (mid tail : List PEvent)
    (e : PEvent) (he : e ∈ ([w, f] ++ mid ++ tail)) :
    e = w ∨ e = f ∨ e ∈ mid ∨ e ∈ tail := by
  simp only [List.cons_append, List.nil_append, List.mem_cons,
    List.mem_append] at he
  tauto

/-- The data-event segment of a disruption-producer group trace. -/
def disturbanceMid (now : String) (m : ModeEntry) (r : DiscApiResponse) :
    List PEvent :=
  (r.disruptions.filter (fun (d : RawDisruption) =>
      d.tags.contains "Actualité")).map
    (fun (d : RawDisruption) =>
      .prod TOPIC (some d.id) (.disc (toCopy now m.name d)))

/-- A disruption-producer group trace on a successful fetch is the wipe,
its flush, the data segment, and the final flush. -/
theorem disturbanceTrace_shape (now : String) (m : ModeEntry)
    (r : DiscApiResponse) :
    disturbanceGroupTrace now m (some r) =
      [.prod TOPIC none (.wipe "CLEAR_ALERTS" m.name), .flush] ++
        disturbanceMid now m r ++ [.flush] := rfl

/-- Every data event of a disruption-producer group trace publishes a
record that passed the `Actualité` filter, keyed by its id. -/
theorem disturbanceTrace_data_mem (now : String) (m : ModeEntry)
    (r : DiscApiResponse) :
    ∀ e ∈ disturbanceGroupTrace now m (some r), isDataEvent e = true →
      ∃ d ∈ r.disruptions, d.tags.contains "Actualité" = true ∧
        e = .prod TOPIC (some d.id) (.disc (toCopy now m.name d)) := by
  intro e he hd
  rw [disturbanceTrace_shape] at he
  have hdec := mem_trace_decomp _ _ _ _ e he
  rcases hdec with rfl | rfl | hmid | htail
  · simp [isDataEvent] at hd
  · simp [isDataEvent] at hd
  · obtain ⟨d, hdf, heq⟩ := List.mem_map.mp hmid
    obtain ⟨hdmem, htag⟩ := List.mem_filter.mp hdf
    exact ⟨d, hdmem, htag, heq.symm⟩
  · rw [List.mem_singleton] at htail
    subst htail
    simp [isDataEvent] at hd

/-- Every publish of a disruption-producer group trace goes to the single
disruption topic. -/
theorem disturbanceTrace_topic (now : String) (m : ModeEntry)
    (r : DiscApiResponse) :
    ∀ e ∈ disturbanceGroupTrace now m (some r),
      ∀ (t : String) (k : Option String) (v : KVal),
        e = .prod t k v → t = TOPIC := by
  intro e he t k v heq
  rw [disturbanceTrace_shape] at he
  have hdec := mem_trace_decomp _ _ _ _ e he
  rcases hdec with rfl | rfl | hmid | htail
  · injection heq with h1 h2 h3
    exact h1.symm
  · exact absurd heq (by simp)
  · obtain ⟨d, -, heq'⟩ := List.mem_map.mp hmid
    rw [← heq'] at heq
    injection heq with h1 h2 h3
    exact h1.symm
  · rw [List.mem_singleton] at htail
    subst htail
    exact absurd heq (by simp)

/-- The first two events of a disruption-producer group trace are the
wipe and its flush — never a data record. -/
theorem disturbanceTrace_head (now : String) (m : ModeEntry)
    (r : DiscApiResponse) :
    (disturbanceGroupTrace now m (some r)).head? =
        some (.prod TOPIC none (.wipe "CLEAR_ALERTS" m.name))
    ∧ (disturbanceGroupTrace now m (some r)).tail.head? = some .flush
    ∧ ∀ e ∈ (disturbanceGroupTrace now m (some r)).take 2,
        isDataEvent e = false := by
  refine ⟨rfl, rfl, ?_⟩
  intro e he
  have he' : e ∈ [PEvent.prod TOPIC none (KVal.wipe "CLEAR_ALERTS" m.name),
      PEvent.flush] := he
  rcases List.mem_cons.mp he' with rfl | he''
  · rfl
  · rw [List.mem_singleton] at he''
    subst he''
    rfl

/-- The data-event segment of a station-producer group trace. -/
def stationMid (m : ModeEntry) (sts : List RawStation) : List PEvent :=
  sts.map (fun (st : RawStation) =>
    .prod stationsTopic (some st.id) (.stat (stationEntryOf m st)))

/-- A station-producer group trace on a successful fetch is the wipe, its
flush, the data segment, and the two final flushes. -/
theorem stationTrace_shape (m : ModeEntry) (sts : List RawStation) :
    stationGroupTrace m (some sts) =
      [.prod stationsTopic none (.wipe "CLEAR_ALERTS" m.name), .flush] ++
        stationMid m sts ++ [.flush, .flush] := rfl

/-- Every data event of a station-producer group trace publishes a
fetched station's entry, keyed by its id. -/
theorem stationTrace_data_mem (m : ModeEntry) (sts : List RawStation) :
    ∀ e ∈ stationGroupTrace m (some sts), isDataEvent e = true →
      ∃ st ∈ sts,
        e = .prod stationsTopic (some st.id)
          (.stat (stationEntryOf m st)) := by
  intro e he hd
  rw [stationTrace_shape] at he
  have hdec := mem_trace_decomp _ _ _ _ e he
  rcases hdec with rfl | rfl | hmid | htail
  · simp [isDataEvent] at hd
  · simp [isDataEvent] at hd
  · obtain ⟨st, hst, heq⟩ := List.mem_map.mp hmid
    exact ⟨st, hst, heq.symm⟩
  · have : e = PEvent.flush := by simpa using htail
    subst this
    simp [isDataEvent] at hd

/-- The first two events of a station-producer group trace are the wipe
and its flush — never a data record. -/
theorem stationTrace_head (m : ModeEntry) (sts : List RawStation) :
    (stationGroupTrace m (some sts)).head? =
        some (.prod stationsTopic none (.wipe "CLEAR_ALERTS" m.name))
    ∧ (stationGroupTrace m (some sts)).tail.head? = some .flush
    ∧ ∀ e ∈ (stationGroupTrace m (some sts)).take 2,
        isDataEvent e = false := by
  refine ⟨rfl, rfl, ?_⟩
  intro e he
  have he' : e ∈ [PEvent.prod stationsTopic none
      (KVal.wipe "CLEAR_ALERTS" m.name), PEvent.flush] := he
  rcases List.mem_cons.mp he' with rfl | he''
  · rfl
  · rw [List.mem_singleton] at he''
    subst he''
    rfl

/-! ## C7 — clear-before-publish ordering and domain filter -/

/-- C7: within one poll cycle, for each mode group of either producer, on
a successful fetch the group's publish trace starts with the CLEAR
control message scoped to that group, immediately followed by its flush
(so the clear is published and flushed strictly before any data record,
none of which sits among the first two events); every data record the
disruption producer publishes carries the `Actualité` tag and is keyed by
its record id, and every data record the station producer publishes is a
fetched station's entry keyed by its id. -/
theorem c7_clear_before_publish (now : String) (m : ModeEntry)
    (r : DiscApiResponse) (sts : List RawStation) :
    (disturbanceGroupTrace now m (some r)).head? =
        some (.prod TOPIC none (.wipe "CLEAR_ALERTS" m.name))
    ∧ (disturbanceGroupTrace now m (some r)).tail.head? = some .flush
    ∧ (∀ e ∈ (disturbanceGroupTrace now m (some r)).take 2,
        isDataEvent e = false)
    ∧ (∀ e ∈ disturbanceGroupTrace now m (some r), isDataEvent e = true →
        ∃ d ∈ r.disruptions, d.tags.contains "Actualité" = true ∧
          e = .prod TOPIC (some d.id) (.disc (toCopy now m.name d)))
    ∧ (stationGroupTrace m (some sts)).head? =
        some (.prod stationsTopic none (.wipe "CLEAR_ALERTS" m.name))
    ∧ (stationGroupTrace m (some sts)).tail.head? = some .flush
    ∧ (∀ e ∈ (stationGroupTrace m (some sts)).take 2,
        isDataEvent e = false)
    ∧ (∀ e ∈ stationGroupTrace m (some sts), isDataEvent e = true →
        ∃ st ∈ sts, e = .prod stationsTopic (some st.id)
          (.stat (stationEntryOf m st))) :=
  ⟨(disturbanceTrace_head now m r).1, (disturbanceTrace_head now m r).2.1,
    (disturbanceTrace_head now m r).2.2, disturbanceTrace_data_mem now m r,
    (stationTrace_head m sts).1, (stationTrace_head m sts).2.1,
    (stationTrace_head m sts).2.2, stationTrace_data_mem m sts⟩

/-- Witness for C7 at a concrete fetch: the Metro group's concrete data
event is in the trace and is characterized by the filter. -/
theorem c7_clear_before_publish_witness :
    c7DataEv ∈ disturbanceGroupTrace "T" metroModeEntry (some c7Resp)
    ∧ isDataEvent c7DataEv = true
    ∧ ∃ d ∈ c7Resp.disruptions, d.tags.contains "Actualité" = true ∧
        c7DataEv = .prod TOPIC (some d.id)
          (.disc (toCopy "T" metroModeEntry.name d)) := by
  have h : disturbanceGroupTrace "T" metroModeEntry (some c7Resp) =
      [.prod TOPIC none (.wipe "CLEAR_ALERTS" "Metro"), .flush, c7DataEv,
        .flush] := rfl
  have hmem : c7DataEv ∈ disturbanceGroupTrace "T" metroModeEntry
      (some c7Resp) := by
    rw [h]
    simp
  exact ⟨hmem, rfl,
    (c7_clear_before_publish "T" metroModeEntry c7Resp c7Stations).2.2.2.1
      c7DataEv hmem rfl⟩

/-! ## C10 — the Tramway group of the disruption producer -/

/-- C10: the disruption producer's `Modes` list has the Tramway physical
mode as its fourth group, so every run also processes Tramway: on a
successful fetch it publishes — on the same single disruption topic as
every other group — a CLEAR control message with mode `"Tramway"`
followed by tram disruption records whose `mode` field is `"Tramway"`,
even though tram is a blocked mode for the downstream query engines
(`_contains_blocked "Tramway"` holds and a Tramway section is never
allowed). -/
theorem c10_tramway_fourth_group (now : String)
    (fetch : ModeEntry → Option DiscApiResponse) (r : DiscApiResponse) :
    Modes.length = 4
    ∧ Modes.drop 3 = [tramwayModeEntry]
    ∧ (runProducerTrace now fetch).map Prod.fst =
        ["Bus", "Metro", "RER", "Tramway"]
    ∧ (disturbanceGroupTrace now tramwayModeEntry (some r)).head? =
        some (.prod TOPIC none (.wipe "CLEAR_ALERTS" "Tramway"))
    ∧ (∀ e ∈ disturbanceGroupTrace now tramwayModeEntry (some r),
        isDataEvent e = true →
        ∃ d ∈ r.disruptions, d.tags.contains "Actualité" = true ∧
          e = .prod TOPIC (some d.id) (.disc (toCopy now "Tramway" d)))
    ∧ (∀ (d : RawDisruption), (toCopy now "Tramway" d).mode = "Tramway")
    ∧ (∀ e ∈ disturbanceGroupTrace now tramwayModeEntry (some r),
        ∀ (t : String) (k : Option String) (v : KVal),
          e = .prod t k v → t = TOPIC)
    ∧ containsBlocked "Tramway" = true
    ∧ allowedSection tramSectionEx = false :=
  ⟨rfl, rfl, rfl,
    (disturbanceTrace_head now tramwayModeEntry r).1,
    disturbanceTrace_data_mem now tramwayModeEntry r,
    fun _ => rfl, disturbanceTrace_topic now tramwayModeEntry r,
    by decide, by decide⟩

/-- Witness for C10 at a concrete fetch: the Tramway group's concrete
data event is in the trace and carries mode `"Tramway"` on the single
disruption topic. -/
theorem c10_tramway_fourth_group_witness :
    c10DataEv ∈ disturbanceGroupTrace "T" tramwayModeEntry (some c7Resp)
    ∧ isDataEvent c10DataEv = true
    ∧ ∃ d ∈ c7Resp.disruptions, d.tags.contains "Actualité" = true ∧
        c10DataEv = .prod TOPIC (some d.id)
          (.disc (toCopy "T" "Tramway" d)) := by
  have h : disturbanceGroupTrace "T" tramwayModeEntry (some c7Resp) =
      [.prod TOPIC none (.wipe "CLEAR_ALERTS" "Tramway"), .flush, c10DataEv,
        .flush] := rfl
  have hmem : c10DataEv ∈ disturbanceGroupTrace "T" tramwayModeEntry
      (some c7Resp) := by
    rw [h]
    simp
  exact ⟨hmem, rfl,
    (c10_tramway_fourth_group "T" (fun _ => none) c7Resp).2.2.2.2.1
      c10DataEv hmem rfl⟩

end PTRag